import Mathlib

/-!
Shallow embedding of the wisecow health-check scripts
(src/app_health_checker.py and src/system_health_monitor.py).

External effects are modelled as explicit inputs: the outcome of the
HTTP GET is a RequestOutcome value, the wall clock is an integer number
of seconds passed in as a parameter, and psutil samples are arguments
of the check functions.  Python floats are modelled as rationals.
-/

namespace Wisecow

/-- Health verdict of one HTTP check (the string values of the Python
dict field named health). -/
inductive Health where
  | UP
  | DEGRADED
  | DOWN
deriving DecidableEq, Repr

/-- One entry of the APPLICATIONS configuration list.  The dict lookups
app_config.get use defaults, hence the Option fields. -/
structure AppConfig where
  name : String
  url : String
  expected_status : Option Nat
  timeout : Option Nat
deriving DecidableEq, Repr

/-- Outcome of the requests.get call inside check_health: a response
carrying a status code, elapsed wall-clock milliseconds and headers, or
one of the three caught exceptions. -/
inductive RequestOutcome where
  | response (status_code : Nat) (response_time_ms : ℚ) (headers : List (String × String))
  | timeout
  | connectionError (err : String)
  | requestException (err : String)
deriving DecidableEq, Repr

/-- The status dict built by check_health.  Absent keys of the failure
branches are Option none.  Timestamps are seconds since an arbitrary
epoch. -/
structure CheckResult where
  timestamp : Int
  application : String
  url : String
  status_code : Option Nat
  expected_status : Nat
  response_time_ms : Option ℚ
  health : Health
  message : String
  error : Option String
  headers : Option (List (String × String))
deriving DecidableEq, Repr

/-- The mutable state of one ApplicationHealthChecker instance. -/
structure CheckerState where
  name : String
  url : String
  expected_status : Nat
  timeout : Nat
  history : List CheckResult
deriving DecidableEq, Repr

/-- ApplicationHealthChecker.init: reads the config with defaults
200 and 5 and starts with an empty history. -/
def mkChecker (cfg : AppConfig) : CheckerState :=
  { name := cfg.name
    url := cfg.url
    expected_status := cfg.expected_status.getD 200
    timeout := cfg.timeout.getD 5
    history := [] }

/-- ApplicationHealthChecker.get_status_message: the static lookup
table of human-readable messages for common status codes; unknown codes
produce the generic message. -/
def get_status_message (status_code : Nat) : String :=
  match status_code with
  | 200 => "OK - Application is functioning correctly"
  | 201 => "Created - Request successful"
  | 204 => "No Content - Request successful"
  | 301 => "Moved Permanently - Redirect"
  | 302 => "Found - Temporary redirect"
  | 400 => "Bad Request - Invalid request"
  | 401 => "Unauthorized - Authentication required"
  | 403 => "Forbidden - Access denied"
  | 404 => "Not Found - Resource does not exist"
  | 500 => "Internal Server Error - Application error"
  | 502 => "Bad Gateway - Upstream server error"
  | 503 => "Service Unavailable - Application temporarily unavailable"
  | 504 => "Gateway Timeout - Upstream timeout"
  | c => "HTTP " ++ toString c

/-- Python round(x, 2).  (Python rounds ties to even; no claim observes
a tie, so the rounding of a tie is immaterial here.) -/
def round2 (x : ℚ) : ℚ := (round (x * 100) : ℤ) / 100

/-- The status dict produced by one call of check_health, by branch:
the try body on a received response, or one of the three except
branches (Timeout, ConnectionError, RequestException). -/
def mkStatus (s : CheckerState) (timestamp : Int) (o : RequestOutcome) : CheckResult :=
  match o with
  | .response code rt hdrs =>
      { timestamp := timestamp
        application := s.name
        url := s.url
        status_code := some code
        expected_status := s.expected_status
        response_time_ms := some (round2 rt)
        health := if code = s.expected_status then .UP else .DEGRADED
        message := get_status_message code
        error := none
        headers := some hdrs }
  | .timeout =>
      { timestamp := timestamp
        application := s.name
        url := s.url
        status_code := none
        expected_status := s.expected_status
        response_time_ms := none
        health := .DOWN
        message := "Request timeout after " ++ toString s.timeout ++ " seconds"
        error := some "TIMEOUT"
        headers := none }
  | .connectionError e =>
      { timestamp := timestamp
        application := s.name
        url := s.url
        status_code := none
        expected_status := s.expected_status
        response_time_ms := none
        health := .DOWN
        message := "Connection failed - Application unreachable"
        error := some e
        headers := none }
  | .requestException e =>
      { timestamp := timestamp
        application := s.name
        url := s.url
        status_code := none
        expected_status := s.expected_status
        response_time_ms := none
        health := .DOWN
        message := "Request failed"
        error := some e
        headers := none }

/-- ApplicationHealthChecker.check_health: every branch - success and
each caught exception - ends at the shared tail that appends the status
to history and returns it.  The caught exceptions do not propagate:
the function is total over all outcomes. -/
def check_health (s : CheckerState) (timestamp : Int) (o : RequestOutcome) :
    CheckerState × CheckResult :=
  let status := mkStatus s timestamp o
  ({ s with history := s.history ++ [status] }, status)

/-- ApplicationHealthChecker.is_recent: datetime.fromisoformat of the
entry compared against now minus timedelta(hours=hours); strictly
greater than the cutoff, with no upper bound. -/
def is_recent (timestamp : Int) (hours : Int) (now : Int) : Bool :=
  now - hours * 3600 < timestamp

/-- ApplicationHealthChecker.get_uptime_percentage: 0 on empty history,
0 when no entry is recent, otherwise the share of recent entries whose
health is UP, times 100. -/
def get_uptime_percentage (s : CheckerState) (hours : Int) (now : Int) : ℚ :=
  if s.history = [] then 0
  else
    let recent_checks := s.history.filter (fun h => is_recent h.timestamp hours now)
    if recent_checks = [] then 0
    else
      let up_count := recent_checks.countP (fun h => h.health == .UP)
      ((up_count : ℚ) / (recent_checks.length : ℚ)) * 100

/-- The summary block of the report dict. -/
structure Summary where
  total_applications : Nat
  up : Nat
  degraded : Nat
  down : Nat
deriving DecidableEq, Repr

/-- One entry of the applications list of the report dict. -/
structure AppReport where
  name : String
  url : String
  current_status : Health
  status_code : Option Nat
  response_time_ms : Option ℚ
  message : String
  uptime_24h : ℚ
  last_check : Int
deriving DecidableEq, Repr

/-- The report dict built by generate_report. -/
structure Report where
  generated_at : Int
  summary : Summary
  applications : List AppReport
deriving DecidableEq, Repr

/-- checker.history[-1] if checker.history else None. -/
def latest_status (c : CheckerState) : Option CheckResult :=
  c.history.getLast?

/-- The loop body of generate_report for one checker: checkers with an
empty history are skipped; otherwise the summary counter matching the
latest health is bumped (the else branch counts everything that is
neither UP nor DEGRADED as down) and an application entry is appended. -/
def report_step (now : Int) (report : Report) (checker : CheckerState) : Report :=
  match latest_status checker with
  | none => report
  | some latest =>
      let summary :=
        match latest.health with
        | .UP => { report.summary with up := report.summary.up + 1 }
        | .DEGRADED => { report.summary with degraded := report.summary.degraded + 1 }
        | .DOWN => { report.summary with down := report.summary.down + 1 }
      let app_report : AppReport :=
        { name := checker.name
          url := checker.url
          current_status := latest.health
          status_code := latest.status_code
          response_time_ms := latest.response_time_ms
          message := latest.message
          uptime_24h := round2 (get_uptime_percentage checker 24 now)
          last_check := latest.timestamp }
      { report with summary := summary
                    applications := report.applications ++ [app_report] }

/-- generate_report without the file write: initial zero counters, then
the for loop over checkers. -/
def generate_report (checkers : List CheckerState) (now : Int) : Report :=
  let init : Report :=
    { generated_at := now
      summary :=
        { total_applications := checkers.length, up := 0, degraded := 0, down := 0 }
      applications := [] }
  checkers.foldl (report_step now) init

/-- Outcome of the json.dump call on the report file. -/
inductive WriteResult where
  | ok
  | failed (err : String)
deriving DecidableEq, Repr

/-- The REPORT_FILE constant. -/
def REPORT_FILE : String := "/var/log/app_health_report.json"

/-- generate_report including its try/except around the file write: a
failed write is only logged; either way the same report object is
returned.  The second component is the log line the branch emits. -/
def generate_report_io (checkers : List CheckerState) (now : Int) (w : WriteResult) :
    Report × String :=
  let report := generate_report checkers now
  match w with
  | .ok => (report, "Report saved to " ++ REPORT_FILE)
  | .failed e => (report, "Failed to save report: " ++ e)

/-- The exit-code decision at the end of main's try block: down > 0
exits 1, else (degraded > 0 or not) exits 0. -/
def exit_code_from_summary (s : Summary) : Nat :=
  if s.down > 0 then 1
  else if s.degraded > 0 then 0
  else 0

/-- main's outer try/except: a completed run exits by the summary
decision; any unexpected exception is caught and exits 2. -/
def app_main_exit (run : Except String Report) : Nat :=
  match run with
  | .ok report => exit_code_from_summary report.summary
  | .error _ => 2

end Wisecow

namespace SysMon

/-- Verdict strings of the resource monitor. -/
inductive RStatus where
  | OK
  | WARNING
  | CRITICAL
deriving DecidableEq, Repr

/-- The THRESHOLDS configuration mapping. -/
structure Thresholds where
  cpu_percent : ℚ
  memory_percent : ℚ
  disk_percent : ℚ
  process_count : Nat
deriving DecidableEq, Repr

/-- The THRESHOLDS constant of system_health_monitor.py. -/
def THRESHOLDS : Thresholds :=
  { cpu_percent := 80, memory_percent := 80, disk_percent := 85, process_count := 300 }

/-- One status dict of the resource monitor.  value is a percentage for
CPU/memory/disk and a process count for the process check. -/
structure MetricStatus where
  metric : String
  value : ℚ
  threshold : ℚ
  status : RStatus
  details : String
deriving DecidableEq, Repr

/-- check_cpu_usage on a sampled aggregate percentage and per-core
list: starts OK and becomes CRITICAL when the sample strictly exceeds
the threshold. -/
def check_cpu_usage (cpu_percent : ℚ) (cpu_per_core : List ℚ) : MetricStatus :=
  let status : MetricStatus :=
    { metric := "CPU"
      value := cpu_percent
      threshold := THRESHOLDS.cpu_percent
      status := .OK
      details := "Per core: " ++ toString cpu_per_core }
  if cpu_percent > THRESHOLDS.cpu_percent then { status with status := .CRITICAL }
  else status

/-- The psutil.virtual_memory sample fields the code reads (bytes are
rationals; the details string keeps the raw numbers instead of the
two-decimal GB rendering). -/
structure VirtualMemory where
  percent : ℚ
  used : ℚ
  total : ℚ
deriving DecidableEq, Repr

/-- check_memory_usage on sampled virtual-memory and swap data. -/
def check_memory_usage (memory : VirtualMemory) (swap_percent : ℚ) : MetricStatus :=
  let status : MetricStatus :=
    { metric := "Memory"
      value := memory.percent
      threshold := THRESHOLDS.memory_percent
      status := .OK
      details := "Used: " ++ toString (memory.used / 1024 ^ 3) ++ "GB / Total: "
        ++ toString (memory.total / 1024 ^ 3) ++ "GB, Swap: " ++ toString swap_percent ++ "%" }
  if memory.percent > THRESHOLDS.memory_percent then { status with status := .CRITICAL }
  else status

/-- The psutil.disk_usage sample for one partition. -/
structure DiskUsage where
  percent : ℚ
  used : ℚ
  total : ℚ
deriving DecidableEq, Repr

/-- A mounted partition together with the outcome of sampling it:
none models psutil.disk_usage raising PermissionError. -/
structure Partition where
  mountpoint : String
  usage : Option DiskUsage
deriving DecidableEq, Repr

/-- The loop body of check_disk_usage for one successfully sampled
partition. -/
def disk_partition_status (mountpoint : String) (usage : DiskUsage) : MetricStatus :=
  let status : MetricStatus :=
    { metric := "Disk (" ++ mountpoint ++ ")"
      value := usage.percent
      threshold := THRESHOLDS.disk_percent
      status := .OK
      details := "Used: " ++ toString (usage.used / 1024 ^ 3) ++ "GB / Total: "
        ++ toString (usage.total / 1024 ^ 3) ++ "GB" }
  if usage.percent > THRESHOLDS.disk_percent then { status with status := .CRITICAL }
  else status

/-- check_disk_usage: the for loop over psutil.disk_partitions with
its try/except PermissionError/continue, appending one status per
successfully sampled partition in order. -/
def check_disk_usage : List Partition → List MetricStatus
  | [] => []
  | ⟨_, none⟩ :: rest => check_disk_usage rest
  | ⟨mp, some usage⟩ :: rest => disk_partition_status mp usage :: check_disk_usage rest

/-- One proc.info record of psutil.process_iter. -/
structure ProcInfo where
  pid : Nat
  name : String
  cpu_percent : ℚ
  memory_percent : ℚ
deriving DecidableEq, Repr

/-- check_running_processes: process_count is len(psutil.pids());
procs lists the iterator items, none standing for an item whose info
access raised NoSuchProcess or AccessDenied and was skipped.  The top-5
CPU consumers only feed the details string.  WARNING when the count
strictly exceeds the threshold. -/
def check_running_processes (process_count : Nat) (procs : List (Option ProcInfo)) :
    MetricStatus :=
  let processes := procs.filterMap id
  let top_processes :=
    (processes.mergeSort (fun a b => b.cpu_percent ≤ a.cpu_percent)).take 5
  let status : MetricStatus :=
    { metric := "Processes"
      value := (process_count : ℚ)
      threshold := (THRESHOLDS.process_count : ℚ)
      status := .OK
      details := "Top CPU consumers: "
        ++ toString (top_processes.map (fun p => p.name ++ "(" ++ toString p.cpu_percent ++ "%)")) }
  if process_count > THRESHOLDS.process_count then { status with status := .WARNING }
  else status

/-- One element of the results list in main: the disk check contributes
a list, the other checks a single dict. -/
inductive ResultItem where
  | single (s : MetricStatus)
  | group (l : List MetricStatus)
deriving DecidableEq, Repr

/-- The two critical_count sums of main: dict results with status
CRITICAL, plus items of list results with status CRITICAL. -/
def critical_count (results : List ResultItem) : Nat :=
  (results.countP fun r => match r with
    | .single s => s.status == .CRITICAL
    | .group _ => false)
  + (results.map (fun r => match r with
    | .single _ => 0
    | .group l => l.countP (fun i => i.status == .CRITICAL))).sum

/-- The exit decision of the resource monitor's main. -/
def sys_exit_code (results : List ResultItem) : Nat :=
  if critical_count results > 0 then 1 else 0

/-- The resource monitor's outer try/except: exit 2 on any unexpected
exception, else the critical-count decision. -/
def sys_main_exit (run : Except String (List ResultItem)) : Nat :=
  match run with
  | .ok results => sys_exit_code results
  | .error _ => 2

end SysMon

namespace Wisecow

/-- The first APPLICATIONS entry of app_health_checker.py. -/
def wisecowConfig : AppConfig :=
  { name := "Wisecow App"
    url := "http://3.94.125.204:31134"
    expected_status := some 200
    timeout := some 5 }

/-- The second APPLICATIONS entry of app_health_checker.py. -/
def exampleConfig : AppConfig :=
  { name := "Example API"
    url := "https://httpbin.org/status/200"
    expected_status := some 200
    timeout := some 10 }

/-- The APPLICATIONS configuration list of app_health_checker.py. -/
def APPLICATIONS : List AppConfig := [wisecowConfig, exampleConfig]

/-- A history entry recorded exactly 24 hours before the evaluation
time 86400 used below: its timestamp sits on the lower edge of the
lookback window. -/
def edgeEntry : CheckResult :=
  { timestamp := 0
    application := "Wisecow App"
    url := "http://3.94.125.204:31134"
    status_code := some 200
    expected_status := 200
    response_time_ms := some 120
    health := .UP
    message := get_status_message 200
    error := none
    headers := some [] }

/-- A checker whose single history entry sits exactly on the window
edge. -/
def edgeChecker : CheckerState :=
  { name := "Wisecow App"
    url := "http://3.94.125.204:31134"
    expected_status := 200
    timeout := 5
    history := [edgeEntry] }

/-- The edge entry moved strictly inside the window. -/
def inEntry : CheckResult := { edgeEntry with timestamp := 10 }

/-- A checker whose single history entry lies strictly inside the
window. -/
def inChecker : CheckerState := { edgeChecker with history := [inEntry] }

/-- A checker that just recorded a timeout, so its latest result is
DOWN. -/
def downChecker : CheckerState :=
  (check_health (mkChecker wisecowConfig) 0 .timeout).1

/-- A checker that just received HTTP 503 against expected 200, so its
latest result is DEGRADED. -/
def degradedChecker : CheckerState :=
  (check_health (mkChecker exampleConfig) 0 (.response 503 120 [])).1

/-- Whether a checker's latest history entry exists and is DOWN. -/
def latest_is_down (c : CheckerState) : Bool :=
  match latest_status c with
  | some l => l.health == .DOWN
  | none => false

theorem latest_is_down_iff (c : CheckerState) :
    latest_is_down c = true ↔ ∃ l, latest_status c = some l ∧ l.health = Health.DOWN := by
  unfold latest_is_down
  cases h : latest_status c with
  | none => simp
  | some l => simp [h]

theorem report_step_down (now : Int) (r : Report) (c : CheckerState) :
    (report_step now r c).summary.down
      = r.summary.down + (if latest_is_down c then 1 else 0) := by
  unfold report_step latest_is_down
  cases h : latest_status c with
  | none => simp
  | some l => cases hh : l.health <;> simp [hh]

theorem foldl_report_step_down (now : Int) (checkers : List CheckerState) (init : Report) :
    (checkers.foldl (report_step now) init).summary.down
      = init.summary.down + checkers.countP latest_is_down := by
  induction checkers generalizing init with
  | nil => simp
  | cons c rest ih =>
      rw [List.foldl_cons, ih, report_step_down, List.countP_cons]
      by_cases h : latest_is_down c <;> simp [h] <;> omega

theorem generate_report_down (checkers : List CheckerState) (now : Int) :
    (generate_report checkers now).summary.down = checkers.countP latest_is_down := by
  unfold generate_report
  rw [foldl_report_step_down]
  simp

theorem get_uptime_percentage_eq (s : CheckerState) (hours now : Int) :
    get_uptime_percentage s hours now =
      if s.history.filter (fun h => is_recent h.timestamp hours now) = [] then 0
      else ((s.history.filter (fun h => is_recent h.timestamp hours now)).countP
              (fun h => h.health == Health.UP) : ℚ)
            / ((s.history.filter (fun h => is_recent h.timestamp hours now)).length : ℚ)
            * 100 := by
  unfold get_uptime_percentage
  by_cases hh : s.history = []
  · simp [hh]
  · rw [if_neg hh]

end Wisecow

namespace SysMon

theorem critical_count_cons_single (s : MetricStatus) (rest : List ResultItem) :
    critical_count (.single s :: rest)
      = (if s.status = RStatus.CRITICAL then 1 else 0) + critical_count rest := by
  simp only [critical_count, List.countP_cons, List.map_cons, List.sum_cons]
  by_cases h : s.status = RStatus.CRITICAL
  · simp [h]
    omega
  · simp [h]

theorem critical_count_cons_group (l : List MetricStatus) (rest : List ResultItem) :
    critical_count (.group l :: rest)
      = l.countP (fun i => i.status == RStatus.CRITICAL) + critical_count rest := by
  simp only [critical_count, List.countP_cons, List.map_cons, List.sum_cons]
  simp
  omega

theorem critical_count_pos_iff (results : List ResultItem) :
    0 < critical_count results ↔
      ∃ s : MetricStatus, s.status = RStatus.CRITICAL ∧
        (ResultItem.single s ∈ results ∨ ∃ l, ResultItem.group l ∈ results ∧ s ∈ l) := by
  induction results with
  | nil => simp [critical_count]
  | cons r rest ih =>
      cases r with
      | single s =>
          rw [critical_count_cons_single]
          by_cases h : s.status = RStatus.CRITICAL
          · rw [if_pos h]
            constructor
            · intro _
              exact ⟨s, h, Or.inl (List.mem_cons_self _ _)⟩
            · intro _
              omega
          · rw [if_neg h, Nat.zero_add, ih]
            constructor
            · rintro ⟨t, ht, hmem | ⟨l, hl, hml⟩⟩
              · exact ⟨t, ht, Or.inl (List.mem_cons_of_mem _ hmem)⟩
              · exact ⟨t, ht, Or.inr ⟨l, List.mem_cons_of_mem _ hl, hml⟩⟩
            · rintro ⟨t, ht, hmem | ⟨l, hl, hml⟩⟩
              · rcases List.mem_cons.1 hmem with heq | hmem2
                · injection heq with h2
                  subst h2
                  exact absurd ht h
                · exact ⟨t, ht, Or.inl hmem2⟩
              · rcases List.mem_cons.1 hl with heq | hl2
                · cases heq
                · exact ⟨t, ht, Or.inr ⟨l, hl2, hml⟩⟩
      | group l =>
          rw [critical_count_cons_group]
          by_cases h : 0 < l.countP (fun i => i.status == RStatus.CRITICAL)
          · constructor
            · intro _
              rcases List.countP_pos_iff.1 h with ⟨t, htl, htc⟩
              exact ⟨t, by simpa using htc, Or.inr ⟨l, List.mem_cons_self _ _, htl⟩⟩
            · intro _
              omega
          · have hz : l.countP (fun i => i.status == RStatus.CRITICAL) = 0 := by omega
            rw [hz, Nat.zero_add, ih]
            have hnone : ∀ t ∈ l, t.status ≠ RStatus.CRITICAL := by
              intro t htl htc
              exact h (List.countP_pos_iff.2 ⟨t, htl, by simpa using htc⟩)
            constructor
            · rintro ⟨t, ht, hmem | ⟨l2, hl2, hml2⟩⟩
              · exact ⟨t, ht, Or.inl (List.mem_cons_of_mem _ hmem)⟩
              · exact ⟨t, ht, Or.inr ⟨l2, List.mem_cons_of_mem _ hl2, hml2⟩⟩
            · rintro ⟨t, ht, hmem | ⟨l2, hl2, hml2⟩⟩
              · rcases List.mem_cons.1 hmem with heq | hmem2
                · cases heq
                · exact ⟨t, ht, Or.inl hmem2⟩
              · rcases List.mem_cons.1 hl2 with heq | hl3
                · injection heq with h2
                  subst h2
                  exact absurd ht (hnone t hml2)
                · exact ⟨t, ht, Or.inr ⟨l2, hl3, hml2⟩⟩

end SysMon

open Wisecow SysMon

/-- C1: for every HTTP target for which a response is received,
check_health returns verdict UP exactly when the status code equals the
target's expected status; any other received code yields DEGRADED; a
received response never yields DOWN, whatever the code. -/
theorem C1_response_verdict (s : CheckerState) (ts : Int) (code : Nat)
    (rt : ℚ) (hdrs : List (String × String)) :
    ((check_health s ts (.response code rt hdrs)).2.health = Health.UP
      ↔ code = s.expected_status)
    ∧ ((check_health s ts (.response code rt hdrs)).2.health = Health.DEGRADED
      ↔ code ≠ s.expected_status)
    ∧ (check_health s ts (.response code rt hdrs)).2.health ≠ Health.DOWN := by
  simp only [check_health, mkStatus]
  by_cases h : code = s.expected_status <;> simp [h]

/-- C6: on a timeout, check_health returns verdict DOWN, a message
stating the configured timeout, no latency, no status code, and error
TIMEOUT; the exception is recovered locally: the result is still
appended to history and returned. -/
theorem C6_timeout_result (s : CheckerState) (ts : Int) :
    (check_health s ts .timeout).2.health = Health.DOWN
    ∧ (check_health s ts .timeout).2.message
        = "Request timeout after " ++ toString s.timeout ++ " seconds"
    ∧ (check_health s ts .timeout).2.response_time_ms = none
    ∧ (check_health s ts .timeout).2.status_code = none
    ∧ (check_health s ts .timeout).2.error = some "TIMEOUT"
    ∧ (check_health s ts .timeout).1.history
        = s.history ++ [(check_health s ts .timeout).2] := by
  simp [check_health, mkStatus]

/-- C7: every invocation of check_health - for the success outcome and
for each recovered failure outcome - appends exactly one result to the
history, growing it by one and leaving all existing entries in place. -/
theorem C7_history_append_one (s : CheckerState) (ts : Int) (o : RequestOutcome) :
    (check_health s ts o).1.history = s.history ++ [(check_health s ts o).2]
    ∧ (check_health s ts o).1.history.length = s.history.length + 1
    ∧ (check_health s ts o).1.history.take s.history.length = s.history := by
  refine ⟨rfl, by simp [check_health], ?_⟩
  simp [check_health, List.take_left]

/-- C9: when writing the report file fails, the failure is only logged:
generate_report returns the same report object as on a successful
write, and the exit code computed from its summary is unchanged. -/
theorem C9_report_write_failure_recovered (checkers : List CheckerState) (now : Int)
    (e : String) :
    (generate_report_io checkers now (.failed e)).1 = generate_report checkers now
    ∧ (generate_report_io checkers now (.failed e)).1
        = (generate_report_io checkers now .ok).1
    ∧ (generate_report_io checkers now (.failed e)).2 = "Failed to save report: " ++ e
    ∧ app_main_exit (Except.ok (generate_report_io checkers now (.failed e)).1)
        = app_main_exit (Except.ok (generate_report_io checkers now .ok).1) :=
  ⟨rfl, rfl, rfl, rfl⟩

/-- C10: for every history and every window, get_uptime_percentage
always lies between 0 and 100. -/
theorem C10_uptime_percentage_bounds (s : CheckerState) (hours now : Int) :
    0 ≤ get_uptime_percentage s hours now ∧ get_uptime_percentage s hours now ≤ 100 := by
  rw [get_uptime_percentage_eq]
  by_cases hfil : s.history.filter (fun h => is_recent h.timestamp hours now) = []
  · rw [if_pos hfil]
    norm_num
  · rw [if_neg hfil]
    have hlen : 0 < (s.history.filter (fun h => is_recent h.timestamp hours now)).length :=
      List.length_pos.mpr hfil
    have hcount : (s.history.filter (fun h => is_recent h.timestamp hours now)).countP
        (fun h => h.health == Health.UP)
        ≤ (s.history.filter (fun h => is_recent h.timestamp hours now)).length :=
      List.countP_le_length _
    have hlenQ : (0 : ℚ)
        < ((s.history.filter (fun h => is_recent h.timestamp hours now)).length : ℚ) := by
      exact_mod_cast hlen
    constructor
    · positivity
    · have hdiv : ((s.history.filter (fun h => is_recent h.timestamp hours now)).countP
            (fun h => h.health == Health.UP) : ℚ)
          / ((s.history.filter (fun h => is_recent h.timestamp hours now)).length : ℚ) ≤ 1 := by
        rw [div_le_one hlenQ]
        exact_mod_cast hcount
      nlinarith

/-- C2 counterexample: a history entry whose timestamp sits exactly on
the lower edge of the closed window [now - N hours, now] claimed by the
spec, with verdict UP.  The claim demands it be counted, giving 100;
get_uptime_percentage uses a strict comparison against the cutoff and
returns 0. -/
theorem C2_counterexample :
    (86400 : Int) - 24 * 3600 ≤ edgeEntry.timestamp
    ∧ edgeEntry.timestamp ≤ 86400
    ∧ edgeEntry.health = Health.UP
    ∧ edgeChecker.history = [edgeEntry]
    ∧ get_uptime_percentage edgeChecker 24 86400 = 0
    ∧ get_uptime_percentage edgeChecker 24 86400 ≠ 100 := by
  refine ⟨by norm_num [edgeEntry], by norm_num [edgeEntry], rfl, rfl, ?_, ?_⟩
  · rw [get_uptime_percentage_eq]
    simp [edgeChecker, edgeEntry, is_recent]
  · rw [get_uptime_percentage_eq]
    simp [edgeChecker, edgeEntry, is_recent]

/-- C2 amended: get_uptime_percentage averages over the entries whose
timestamp is strictly greater than now - N hours (the window is open at
its lower edge and has no upper bound); it returns 0 when no entry
qualifies (in particular on an empty history), the UP share times 100
otherwise, and exactly 100 when every qualifying entry is UP; entries
at or before the cutoff are excluded from numerator and denominator. -/
theorem C2_amended_uptime (s : CheckerState) (hours now : Int) :
    (∀ h : CheckResult, is_recent h.timestamp hours now = true
      ↔ now - hours * 3600 < h.timestamp)
    ∧ (s.history.filter (fun h => is_recent h.timestamp hours now) = [] →
        get_uptime_percentage s hours now = 0)
    ∧ (s.history.filter (fun h => is_recent h.timestamp hours now) ≠ [] →
        get_uptime_percentage s hours now =
          ((s.history.filter (fun h => is_recent h.timestamp hours now)).countP
              (fun h => h.health == Health.UP) : ℚ)
            / ((s.history.filter (fun h => is_recent h.timestamp hours now)).length : ℚ)
            * 100)
    ∧ ((∀ h ∈ s.history.filter (fun h => is_recent h.timestamp hours now),
          h.health = Health.UP) →
        s.history.filter (fun h => is_recent h.timestamp hours now) ≠ [] →
        get_uptime_percentage s hours now = 100) := by
  refine ⟨fun h => by simp [is_recent], ?_, ?_, ?_⟩
  · intro hfil
    rw [get_uptime_percentage_eq, if_pos hfil]
  · intro hfil
    rw [get_uptime_percentage_eq, if_neg hfil]
  · intro hall hfil
    rw [get_uptime_percentage_eq, if_neg hfil]
    have hcnt : (s.history.filter (fun h => is_recent h.timestamp hours now)).countP
        (fun h => h.health == Health.UP)
        = (s.history.filter (fun h => is_recent h.timestamp hours now)).length :=
      List.countP_eq_length.2 (fun a ha => by simpa using hall a ha)
    rw [hcnt]
    have hlen0 : (s.history.filter (fun h => is_recent h.timestamp hours now)).length ≠ 0 :=
      fun h0 => hfil (List.length_eq_zero.1 h0)
    have hlenQ : ((s.history.filter (fun h => is_recent h.timestamp hours now)).length : ℚ)
        ≠ 0 := Nat.cast_ne_zero.2 hlen0
    rw [div_self hlenQ, one_mul]

/-- C2 amended witness: one UP entry strictly inside the window gives
exactly 100, and a fresh checker with empty history gives 0. -/
theorem C2_amended_uptime_witness :
    get_uptime_percentage inChecker 24 86400 = 100
    ∧ get_uptime_percentage (mkChecker wisecowConfig) 24 86400 = 0 := by
  constructor
  · apply (C2_amended_uptime inChecker 24 86400).2.2.2
    · decide
    · decide
  · exact (C2_amended_uptime (mkChecker wisecowConfig) 24 86400).2.1 rfl

/-- C3: for each resource metric, a sampled value strictly above its
configured threshold yields CRITICAL (WARNING for the process count),
and a value equal to the threshold yields OK: the boundary is exclusive
above for all four checks. -/
theorem C3_threshold_boundary_exclusive (v m d : ℚ) (cores : List ℚ)
    (memUsed memTotal swap du dtot : ℚ) (mp : String)
    (n : Nat) (procs : List (Option ProcInfo)) :
    (((check_cpu_usage v cores).status = RStatus.CRITICAL ↔ THRESHOLDS.cpu_percent < v)
      ∧ (check_cpu_usage THRESHOLDS.cpu_percent cores).status = RStatus.OK)
    ∧ (((check_memory_usage ⟨m, memUsed, memTotal⟩ swap).status = RStatus.CRITICAL
          ↔ THRESHOLDS.memory_percent < m)
      ∧ (check_memory_usage ⟨THRESHOLDS.memory_percent, memUsed, memTotal⟩ swap).status
          = RStatus.OK)
    ∧ (((disk_partition_status mp ⟨d, du, dtot⟩).status = RStatus.CRITICAL
          ↔ THRESHOLDS.disk_percent < d)
      ∧ (disk_partition_status mp ⟨THRESHOLDS.disk_percent, du, dtot⟩).status = RStatus.OK)
    ∧ (((check_running_processes n procs).status = RStatus.WARNING
          ↔ THRESHOLDS.process_count < n)
      ∧ (check_running_processes THRESHOLDS.process_count procs).status = RStatus.OK) := by
  refine ⟨⟨?_, ?_⟩, ⟨?_, ?_⟩, ⟨?_, ?_⟩, ⟨?_, ?_⟩⟩ <;>
    simp only [check_cpu_usage, check_memory_usage, disk_partition_status,
      check_running_processes] <;>
    split_ifs with h <;>
    simp_all

/-- C4: the HTTP driver exits 1 when some target's latest result is
DOWN, 0 when no target's latest result is DOWN (all UP or only
DEGRADED), and 2 on an unexpected internal error; the resource driver
exits 1 when some metric status is CRITICAL, 0 when none is (a WARNING
alone exits 0), and 2 on an unexpected internal error. -/
theorem C4_exit_codes (checkers : List CheckerState) (results : List ResultItem)
    (e1 e2 : String) (now : Int) :
    ((∃ c ∈ checkers, ∃ l, latest_status c = some l ∧ l.health = Health.DOWN) →
      app_main_exit (Except.ok (generate_report checkers now)) = 1)
    ∧ ((∀ c ∈ checkers, ∀ l, latest_status c = some l → l.health ≠ Health.DOWN) →
      app_main_exit (Except.ok (generate_report checkers now)) = 0)
    ∧ app_main_exit (Except.error e1) = 2
    ∧ ((∃ s : MetricStatus, s.status = RStatus.CRITICAL ∧
          (ResultItem.single s ∈ results ∨ ∃ l, ResultItem.group l ∈ results ∧ s ∈ l)) →
      sys_main_exit (Except.ok results) = 1)
    ∧ ((∀ s : MetricStatus, s.status = RStatus.CRITICAL →
          ResultItem.single s ∉ results ∧ ∀ l, ResultItem.group l ∈ results → s ∉ l) →
      sys_main_exit (Except.ok results) = 0)
    ∧ sys_main_exit (Except.error e2) = 2 := by
  refine ⟨?_, ?_, rfl, ?_, ?_, rfl⟩
  · rintro ⟨c, hc, l, hl, hdown⟩
    have hd : 0 < (generate_report checkers now).summary.down := by
      rw [generate_report_down]
      exact List.countP_pos_iff.2 ⟨c, hc, (latest_is_down_iff c).2 ⟨l, hl, hdown⟩⟩
    simp only [app_main_exit, exit_code_from_summary]
    rw [if_pos hd]
  · intro hnone
    have hd : (generate_report checkers now).summary.down = 0 := by
      rw [generate_report_down]
      rw [List.countP_eq_zero]
      intro c hc hdc
      rcases (latest_is_down_iff c).1 hdc with ⟨l, hl, hdown⟩
      exact hnone c hc l hl hdown
    simp only [app_main_exit, exit_code_from_summary, hd]
    split_ifs <;> omega
  · rintro hex
    have hp : 0 < critical_count results := (critical_count_pos_iff results).2 hex
    simp only [sys_main_exit, sys_exit_code]
    rw [if_pos hp]
  · intro hnone
    have hz : ¬ 0 < critical_count results := by
      rw [critical_count_pos_iff]
      rintro ⟨t, ht, hmem | ⟨l, hl, hml⟩⟩
      · exact (hnone t ht).1 hmem
      · exact (hnone t ht).2 l hl hml
    simp only [sys_main_exit, sys_exit_code]
    rw [if_neg hz]

/-- C4 witness: a run with one timed-out (DOWN) target exits 1, and a
resource run whose CPU sample 95 exceeds the threshold exits 1; a
DEGRADED-only run and a WARNING-only resource run both exit 0. -/
theorem C4_exit_codes_witness :
    app_main_exit (Except.ok (generate_report [downChecker] 0)) = 1
    ∧ sys_main_exit (Except.ok [ResultItem.single (check_cpu_usage 95 [])]) = 1
    ∧ app_main_exit (Except.ok (generate_report [degradedChecker] 0)) = 0
    ∧ sys_main_exit
        (Except.ok [ResultItem.single (check_running_processes 301 [])]) = 0 := by
  have h1 := C4_exit_codes [downChecker] [ResultItem.single (check_cpu_usage 95 [])]
    "boom" "boom" 0
  have h2 := C4_exit_codes [degradedChecker]
    [ResultItem.single (check_running_processes 301 [])] "boom" "boom" 0
  refine ⟨h1.1 ?_, h1.2.2.2.1 ?_, h2.2.1 ?_, h2.2.2.2.2.1 ?_⟩
  · exact ⟨downChecker, by decide, mkStatus (mkChecker wisecowConfig) 0 .timeout, rfl, rfl⟩
  · refine ⟨check_cpu_usage 95 [], ?_, Or.inl (by decide)⟩
    norm_num [check_cpu_usage, THRESHOLDS]
  · intro c hc l hl
    have hc1 : c = degradedChecker := by
      cases hc with
      | head => rfl
      | tail _ h => cases h
    subst hc1
    have hl1 : l = mkStatus (mkChecker exampleConfig) 0 (.response 503 120 []) := by
      rw [show latest_status degradedChecker
          = some (mkStatus (mkChecker exampleConfig) 0 (.response 503 120 [])) from rfl]
        at hl
      exact (Option.some.inj hl).symm
    subst hl1
    decide
  · intro t ht
    constructor
    · intro hmem
      have htc : t = check_running_processes 301 [] := by
        cases hmem with
        | head => rfl
        | tail _ h => cases h
      subst htc
      rw [show (check_running_processes 301 []).status = RStatus.WARNING by
        norm_num [check_running_processes, THRESHOLDS]] at ht
      cases ht
    · intro l hl
      cases hl with
      | tail _ h => cases h

/-- C5 counterexample: a run whose only anomaly is a DEGRADED target
(HTTP 503 received against expected 200) exits with code 0, not 1 as
the claim states: under the code, degraded findings do not change the
exit code. -/
theorem C5_counterexample :
    (latest_status degradedChecker).map (fun l => l.health) = some Health.DEGRADED
    ∧ app_main_exit (Except.ok (generate_report [degradedChecker] 0)) = 0 := by
  constructor
  · rfl
  · rfl

/-- C5 amended: the HTTP driver's exit code is 0 exactly when the
summary records no DOWN target - so degraded findings alone still exit
0 - it is 1 exactly when some target is DOWN, and 2 on an internal
error. -/
theorem C5_amended_exit_semantics (r : Report) (e : String) :
    (app_main_exit (Except.ok r) = 0 ↔ r.summary.down = 0)
    ∧ (app_main_exit (Except.ok r) = 1 ↔ 0 < r.summary.down)
    ∧ app_main_exit (Except.error e) = 2 := by
  refine ⟨?_, ?_, rfl⟩ <;>
    simp only [app_main_exit, exit_code_from_summary] <;>
    split_ifs with h1 h2 <;>
    simp <;>
    omega

/-- C8: check_disk_usage is the per-partition classifier mapped over
exactly the partitions whose usage sample succeeded: a partition whose
sample raises a permission error is skipped without aborting the rest,
and one result is produced per successfully sampled partition. -/
theorem C8_disk_permission_skip (ps xs ys : List Partition) (mp : String) :
    check_disk_usage ps
      = ps.filterMap (fun p => p.usage.map (disk_partition_status p.mountpoint))
    ∧ (check_disk_usage ps).length = ps.countP (fun p => p.usage.isSome)
    ∧ check_disk_usage (xs ++ ⟨mp, none⟩ :: ys) = check_disk_usage (xs ++ ys) := by
  refine ⟨?_, ?_, ?_⟩
  · induction ps with
    | nil => rfl
    | cons p rest ih =>
        cases p with
        | mk mpnt usage =>
            cases usage with
            | none => simpa [check_disk_usage] using ih
            | some u => simp [check_disk_usage, ih]
  · induction ps with
    | nil => rfl
    | cons p rest ih =>
        cases p with
        | mk mpnt usage =>
            cases usage with
            | none => simpa [check_disk_usage, List.countP_cons] using ih
            | some u => simp [check_disk_usage, List.countP_cons, ih]
  · induction xs with
    | nil => rfl
    | cons p rest ih =>
        cases p with
        | mk mpnt usage =>
            cases usage with
            | none => simpa [check_disk_usage] using ih
            | some u => simp [check_disk_usage, ih]
